import Mathlib

/-!
Verification of the school-data ETL pipeline (`high_school_etl_dag.py`).

The development shallowly embeds the three pipeline stages:

* `fetch_data_from_json` — the extract stage.  Reading and deserializing the
  source file is modelled by a `SourceFile` value: the file may be missing
  (`open` raises `FileNotFoundError`), undecodable (`json.load` raises
  `JSONDecodeError`) or well formed, in which case the stage returns the
  deserialized document verbatim — the Python function performs no further
  checks.
* `transform_data` — the transform stage, embedded record-wise.  A pandas
  `DataFrame` built from a list of JSON records has a column exactly when at
  least one record carries the corresponding field; accessing an absent
  column raises `KeyError`.  `df['status'].str.contains('N')` yields `NA` on
  a missing value, `df['bentuk'] == 'SMA'` yields `False` on a missing
  value, object-dtype `&` propagates `NA`, and indexing a frame with a mask
  containing `NA` raises `ValueError`; string concatenation over an
  object-dtype column propagates `NA`; `pd.to_numeric(errors='coerce')` maps
  unparseable values to `NA`; `dropna(subset=[...])` keeps exactly the rows
  in which all listed columns are non-null.  These library behaviours are
  reflected in the definitions below.
* `load_data_to_database` — the load stage.  The destination
  (`hijir.target_table` in PostgreSQL) is modelled as an optional table; the
  stage runs `CREATE TABLE IF NOT EXISTS` with every column typed `TEXT` and
  then `DataFrame.to_sql(..., if_exists='replace')`, which drops any existing
  table and recreates it from the frame.

Numeric coercion results are modelled as exact decimal values
(`DecimalValue`, the value `mant / 10 ^ exp`), the idealisation of the float
produced by parsing a decimal literal.
-/

namespace SchoolETL

/-- The value obtained by parsing a decimal numeral: `mant / 10 ^ exp`. -/
structure DecimalValue where
  mant : Int
  exp : Nat
deriving Repr, DecidableEq

/-- The rational value denoted by a `DecimalValue`. -/
def DecimalValue.toRat (d : DecimalValue) : Rat := (d.mant : Rat) / 10 ^ d.exp

/-- Natural number denoted by a list of decimal digit characters. -/
def digitsVal (cs : List Char) : Nat :=
  cs.foldl (fun n c => 10 * n + (c.toNat - 48)) 0

/-- Parse an unsigned decimal numeral (`"6"`, `"6.2"`, `".5"`, `"6."`);
`none` when the characters are not a numeral. -/
def parseUnsigned (cs : List Char) : Option DecimalValue :=
  let ip := cs.takeWhile Char.isDigit
  let rest := cs.dropWhile Char.isDigit
  match rest with
  | [] => if ip.isEmpty then none else some ⟨(digitsVal ip : Int), 0⟩
  | '.' :: rest2 =>
    let fp := rest2.takeWhile Char.isDigit
    let rest3 := rest2.dropWhile Char.isDigit
    if rest3.isEmpty = false then none
    else if ip.isEmpty && fp.isEmpty then none
    else some ⟨(digitsVal ip * 10 ^ fp.length + digitsVal fp : Int), fp.length⟩
  | _ => none

/-- Parse a signed decimal numeral, as `float()` does for plain decimal
notation; `none` when parsing fails. -/
def parseNumeric (s : String) : Option DecimalValue :=
  match s.data with
  | '-' :: rest => (parseUnsigned rest).map (fun d => ⟨-d.mant, d.exp⟩)
  | '+' :: rest => parseUnsigned rest
  | cs => parseUnsigned cs

/-- `pd.to_numeric(x, errors='coerce')` on one cell: a missing value stays
missing, an unparseable value becomes `NA` (`none`), a numeral its value. -/
def to_numeric_coerce (v : Option String) : Option DecimalValue :=
  v.bind parseNumeric

/-- One record of the `dataSekolah` array.  The six fields used by the
pipeline; each may be absent (`none`), matching JSON records with missing
keys. -/
structure RawRecord where
  status : Option String
  bentuk : Option String
  sekolah : Option String
  alamat_jalan : Option String
  lintang : Option String
  bujur : Option String
deriving Repr, DecidableEq

/-- The deserialized top-level JSON document: keys mapped to record arrays. -/
abbrev JsonDoc := List (String × List RawRecord)

/-- `data[k]`-style lookup on the document, `none` when the key is absent. -/
def findKey (doc : JsonDoc) (k : String) : Option (List RawRecord) :=
  match doc with
  | [] => none
  | (k2, v) :: rest => if k2 = k then some v else findKey rest k

/-- The state of the source file handed to the extract stage. -/
inductive SourceFile
  | missing
  | malformed
  | wellFormed (doc : JsonDoc)
deriving Repr, DecidableEq

/-- Errors the extract stage can raise. -/
inductive ExtractError
  | fileNotFoundError
  | jsonDecodeError
deriving Repr, DecidableEq

/-- The extract stage: `open` + `json.load`, then `return data` — the
deserialized document is returned verbatim, with no check of its keys. -/
def fetch_data_from_json : SourceFile → Except ExtractError JsonDoc
  | .missing => .error .fileNotFoundError
  | .malformed => .error .jsonDecodeError
  | .wellFormed doc => .ok doc

/-- Errors the transform stage can raise. -/
inductive TransformError
  | keyErrorDataSekolah
  | keyErrorColumn (col : String)
  | maskValueError
deriving Repr, DecidableEq

/-- A pandas `DataFrame` built from a record list has a column exactly when
some record carries the field. -/
def hasColumn (recs : List RawRecord) (field : RawRecord → Option String) : Bool :=
  recs.any (fun r => (field r).isSome)

/-- One cell of `df['status'].str.contains('N')`: `NA` on a missing value,
otherwise whether the character `'N'` occurs in the string. -/
def statusMask (r : RawRecord) : Option Bool :=
  r.status.map (fun s => s.data.contains 'N')

/-- One cell of `df['bentuk'] == 'SMA'`: `False` on a missing value. -/
def bentukMask (r : RawRecord) : Bool :=
  r.bentuk == some "SMA"

/-- Object-dtype `&` of the two mask cells: `NA` on the left propagates. -/
def combinedMask (r : RawRecord) : Option Bool :=
  match statusMask r with
  | none => none
  | some b => some (b && bentukMask r)

/-- Whether indexing with the combined mask raises pandas'
`ValueError: cannot mask with non-boolean array containing NA` — true when
some cell of the mask is `NA`. -/
def maskHasNA (recs : List RawRecord) : Bool :=
  recs.any (fun r => (combinedMask r).isNone)

/-- A record is kept by `df[mask]` when its mask cell is `True`. -/
def passesFilter (r : RawRecord) : Bool :=
  combinedMask r == some true

/-- `transformed_df['sekolah'] + " - " + transformed_df['alamat_jalan']` on
one row: object-dtype addition propagates `NA` from either operand. -/
def derive_school_address (r : RawRecord) : Option String :=
  match r.sekolah, r.alamat_jalan with
  | some s, some a => some (s ++ " - " ++ a)
  | _, _ => none

/-- A row after TRANSFORMATION 2 (address derivation): the six original
columns plus `school_address`, coordinates still raw strings. -/
structure AddressRow where
  status : Option String
  bentuk : Option String
  sekolah : Option String
  alamat_jalan : Option String
  lintang : Option String
  bujur : Option String
  school_address : Option String
deriving Repr, DecidableEq

/-- TRANSFORMATION 2 on one surviving row. -/
def step_address (r : RawRecord) : AddressRow :=
  { status := r.status
    bentuk := r.bentuk
    sekolah := r.sekolah
    alamat_jalan := r.alamat_jalan
    lintang := r.lintang
    bujur := r.bujur
    school_address := derive_school_address r }

/-- A row of the transform stage's output frame: coordinates numerically
coerced, `school_address` derived. -/
structure Row where
  status : Option String
  bentuk : Option String
  sekolah : Option String
  alamat_jalan : Option String
  lintang : Option DecimalValue
  bujur : Option DecimalValue
  school_address : Option String
deriving Repr, DecidableEq

/-- TRANSFORMATION 3 on one row: `pd.to_numeric(..., errors='coerce')` on
the two coordinate columns. -/
def step_coerce (r : AddressRow) : Row :=
  { status := r.status
    bentuk := r.bentuk
    sekolah := r.sekolah
    alamat_jalan := r.alamat_jalan
    lintang := to_numeric_coerce r.lintang
    bujur := to_numeric_coerce r.bujur
    school_address := r.school_address }

/-- TRANSFORMATION 4: `dropna(subset=['lintang', 'bujur'])` — keep exactly
the rows whose two coordinate cells are non-null. -/
def dropna_coords (rows : List Row) : List Row :=
  rows.filter (fun w => w.lintang.isSome && w.bujur.isSome)

/-- The transform stage on the document pulled from XCom.  Mirrors
`transform_data` line by line: `data['dataSekolah']` (`KeyError` when
absent), the status/bentuk filter (`KeyError` on a missing column,
`ValueError` on an `NA` mask cell), address derivation (`KeyError` on a
missing column), numeric coercion of the coordinates (`KeyError` on a
missing column) and the final `dropna`. -/
def transform_data (doc : JsonDoc) : Except TransformError (List Row) :=
  match findKey doc "dataSekolah" with
  | none => .error .keyErrorDataSekolah
  | some recs =>
    if hasColumn recs (fun r => r.status) = false then
      .error (.keyErrorColumn "status")
    else if hasColumn recs (fun r => r.bentuk) = false then
      .error (.keyErrorColumn "bentuk")
    else if maskHasNA recs then
      .error .maskValueError
    else
      let transformed := recs.filter passesFilter
      if hasColumn recs (fun r => r.sekolah) = false then
        .error (.keyErrorColumn "sekolah")
      else if hasColumn recs (fun r => r.alamat_jalan) = false then
        .error (.keyErrorColumn "alamat_jalan")
      else
        let withAddress := transformed.map step_address
        if hasColumn recs (fun r => r.lintang) = false then
          .error (.keyErrorColumn "lintang")
        else if hasColumn recs (fun r => r.bujur) = false then
          .error (.keyErrorColumn "bujur")
        else
          let coerced := withAddress.map step_coerce
          .ok (dropna_coords coerced)

/-- The end-to-end per-record processing: address derivation followed by
coordinate coercion. -/
def procRow (r : RawRecord) : Row :=
  step_coerce (step_address r)

/-- A record survives the whole transform (business filter and coordinate
quality-drop). -/
def keepRecord (r : RawRecord) : Bool :=
  passesFilter r && (to_numeric_coerce r.lintang).isSome
    && (to_numeric_coerce r.bujur).isSome

/-- Destination schema name. -/
def custom_schema : String := "hijir"

/-- A tabular frame as seen by the loader: named columns in order, rows as
cell lists. -/
structure TabularFrame where
  cols : List String
  rows : List (List String)
deriving Repr, DecidableEq

/-- The persisted destination table (`hijir.target_table`). -/
structure DBTable where
  cols : List String
  rows : List (List String)
deriving Repr, DecidableEq

/-- The destination database: the optional `hijir.target_table`. -/
abbrev Database := Option DBTable

/-- `{col: 'TEXT' for col, dtype in transformed_data.dtypes.items()}`. -/
def data_types (frame : TabularFrame) : List (String × String) :=
  frame.cols.map (fun c => (c, "TEXT"))

/-- Dictionary access `data_types[col]`. -/
def lookupType : List (String × String) → String → Option String
  | [], _ => none
  | (k, v) :: rest, c => if k = c then some v else lookupType rest c

/-- The column declarations of the `CREATE TABLE IF NOT EXISTS` statement:
`[f'{col} {data_types[col]}' for col in transformed_data.columns]`. -/
def create_table_columns (frame : TabularFrame) : List (String × Option String) :=
  frame.cols.map (fun c => (c, lookupType (data_types frame) c))

/-- `CREATE TABLE IF NOT EXISTS`: creates the declared table only when no
table exists; an existing table is left untouched. -/
def create_if_not_exists (cols : List String) (db : Database) : Database :=
  match db with
  | none => some ⟨cols, []⟩
  | some t => some t

/-- `DataFrame.to_sql(..., if_exists='replace')`: drops any existing table
and recreates it from the frame. -/
def to_sql_replace (frame : TabularFrame) (_db : Database) : Database :=
  some ⟨frame.cols, frame.rows⟩

/-- The load stage: conditional create, then replace-semantics bulk load. -/
def load_data_to_database (frame : TabularFrame) (db : Database) : Database :=
  to_sql_replace frame
    (create_if_not_exists ((create_table_columns frame).map (fun p => p.1)) db)

/-- Rows currently stored at the destination. -/
def tableRows (db : Database) : List (List String) :=
  match db with
  | none => []
  | some t => t.rows

/-! ### The concrete scenario of the spec (section 8) -/

/-- First record of the concrete scenario: public high school with
parseable coordinates. -/
def rec1 : RawRecord :=
  ⟨some "N", some "SMA", some "SMA 1", some "Jl. Merdeka", some "-6.2", some "106.8"⟩

/-- Second record: private (`status = "S"`). -/
def rec2 : RawRecord :=
  ⟨some "S", some "SMA", some "SMA 2", some "Jl. Sudirman", some "-6.3", some "106.9"⟩

/-- Third record: unparseable latitude. -/
def rec3 : RawRecord :=
  ⟨some "N", some "SMA", some "SMA 3", some "Jl. Thamrin", some "abc", some "106.7"⟩

/-- The concrete scenario's document. -/
def exampleDoc : JsonDoc := [("dataSekolah", [rec1, rec2, rec3])]

/-- The single output row the concrete scenario should produce. -/
def exampleRow : Row :=
  ⟨some "N", some "SMA", some "SMA 1", some "Jl. Merdeka",
    some ⟨-62, 1⟩, some ⟨1068, 1⟩, some "SMA 1 - Jl. Merdeka"⟩

/-! ### General lemmas about the transform stage -/

/-- Characterisation of the business filter: a row's mask cell is `True`
exactly when its status is present and contains `'N'` and its bentuk equals
`"SMA"`. -/
theorem passesFilter_iff (r : RawRecord) :
    passesFilter r = true ↔
      ((∃ s, r.status = some s ∧ s.data.contains 'N' = true) ∧
        r.bentuk = some "SMA") := by
  cases hs : r.status with
  | none => simp [passesFilter, combinedMask, statusMask, hs]
  | some s =>
    simp [passesFilter, combinedMask, statusMask, bentukMask, hs]

/-- The staged pipeline body fuses to one filter followed by one map. -/
theorem pipeline_fuse (recs : List RawRecord) :
    dropna_coords (((recs.filter passesFilter).map step_address).map step_coerce)
      = (recs.filter keepRecord).map procRow := by
  rw [List.map_map, dropna_coords, List.filter_map, List.filter_filter]
  have hfun : step_coerce ∘ step_address = procRow := rfl
  rw [hfun]
  congr 1
  apply List.filter_congr
  intro r _
  simp [keepRecord, procRow, step_coerce, step_address, Bool.and_comm,
    Bool.and_assoc, Bool.and_left_comm]

/-- A successful transform run produces exactly the kept records, each
processed by address derivation and coordinate coercion, in input order. -/
theorem transform_data_ok (doc : JsonDoc) (recs : List RawRecord)
    (out : List Row) (hfind : findKey doc "dataSekolah" = some recs)
    (hok : transform_data doc = .ok out) :
    out = (recs.filter keepRecord).map procRow := by
  simp only [transform_data, hfind] at hok
  split at hok
  · cases hok
  split at hok
  · cases hok
  split at hok
  · cases hok
  split at hok
  · cases hok
  split at hok
  · cases hok
  split at hok
  · cases hok
  split at hok
  · cases hok
  rw [Except.ok.injEq] at hok
  rw [← hok, pipeline_fuse]

/-- A one-record document whose record is dropped by the business filter. -/
def droppedDoc : JsonDoc := [("dataSekolah", [rec2])]

/-! ### Claims -/

/-- C1: for every record collection handed to the transform stage, a
record appears in the output iff its status contains the public marker
`'N'`, its bentuk equals `"SMA"`, and both its latitude and longitude
parse to numeric values; records failing any condition are dropped, and a
surviving record appears exactly as its processed image (original fields
unchanged, address derived, coordinates coerced). -/
theorem c1_output_membership_iff (doc : JsonDoc) (recs : List RawRecord)
    (out : List Row) (hfind : findKey doc "dataSekolah" = some recs)
    (hok : transform_data doc = .ok out) (row : Row) :
    row ∈ out ↔ ∃ r, r ∈ recs ∧
      (∃ s, r.status = some s ∧ s.data.contains 'N' = true) ∧
      r.bentuk = some "SMA" ∧
      (to_numeric_coerce r.lintang).isSome = true ∧
      (to_numeric_coerce r.bujur).isSome = true ∧
      row = procRow r := by
  rw [transform_data_ok doc recs out hfind hok]
  simp only [List.mem_map, List.mem_filter, keepRecord, Bool.and_eq_true,
    passesFilter_iff]
  constructor
  · rintro ⟨r, ⟨hr, ⟨⟨hs, hb⟩, hl⟩, hbj⟩, rfl⟩
    exact ⟨r, hr, hs, hb, hl, hbj, rfl⟩
  · rintro ⟨r, hr, hs, hb, hl, hbj, rfl⟩
    exact ⟨r, ⟨hr, ⟨⟨hs, hb⟩, hl⟩, hbj⟩, rfl⟩

/-- C1 witness: the characterisation applied to a concrete one-record
document whose record has non-public status, so the output is empty. -/
theorem c1_output_membership_iff_witness :
    procRow rec2 ∈ ([] : List Row) ↔ ∃ r, r ∈ [rec2] ∧
      (∃ s, r.status = some s ∧ s.data.contains 'N' = true) ∧
      r.bentuk = some "SMA" ∧
      (to_numeric_coerce r.lintang).isSome = true ∧
      (to_numeric_coerce r.bujur).isSome = true ∧
      procRow rec2 = procRow r :=
  c1_output_membership_iff droppedDoc [rec2] [] (by decide) rfl
    (procRow rec2)

/-- C2: on the concrete three-record scenario the transform stage outputs
exactly one row, carrying `sekolah = "SMA 1"`,
`school_address = "SMA 1 - Jl. Merdeka"`, latitude `-6.2` and longitude
`106.8` (as exact decimal values). -/
theorem c2_concrete_scenario :
    transform_data exampleDoc = .ok [exampleRow] ∧
    exampleRow.sekolah = some "SMA 1" ∧
    exampleRow.school_address = some "SMA 1 - Jl. Merdeka" ∧
    exampleRow.lintang.map DecimalValue.toRat = some (-6.2 : Rat) ∧
    exampleRow.bujur.map DecimalValue.toRat = some (106.8 : Rat) := by
  refine ⟨rfl, by decide, by decide, ?_, ?_⟩
  · norm_num [exampleRow, DecimalValue.toRat]
  · norm_num [exampleRow, DecimalValue.toRat]

/-- C3: every output record's `school_address` equals its name, the literal
separator `" - "`, and its street, concatenated. -/
theorem c3_school_address_concat (doc : JsonDoc) (recs : List RawRecord)
    (out : List Row) (hfind : findKey doc "dataSekolah" = some recs)
    (hok : transform_data doc = .ok out) :
    ∀ row ∈ out, ∀ s a, row.sekolah = some s → row.alamat_jalan = some a →
      row.school_address = some (s ++ " - " ++ a) := by
  intro row hrow s a hs ha
  rw [transform_data_ok doc recs out hfind hok] at hrow
  obtain ⟨r, _, rfl⟩ := List.mem_map.mp hrow
  simp only [procRow, step_coerce, step_address] at hs ha ⊢
  rw [derive_school_address, hs, ha]

/-- C3 witness: the concatenation law applied to the concrete scenario's
output row. -/
theorem c3_school_address_concat_witness :
    exampleRow.school_address = some ("SMA 1" ++ " - " ++ "Jl. Merdeka") :=
  c3_school_address_concat exampleDoc [rec1, rec2, rec3] [exampleRow]
    (by decide) rfl exampleRow (by decide) "SMA 1" "Jl. Merdeka"
    (by decide) (by decide)

/-- C7: the transform stage is a pure function of the pulled document —
running it twice on the same collection yields identical frames. -/
theorem c7_transform_deterministic (doc : JsonDoc) :
    transform_data doc = transform_data doc := rfl

/-- C10: the transform stage preserves relative source order — a
successful run's output is a sublist of the input records' processed
images, in input order; filtering and quality-drop only remove rows. -/
theorem c10_transform_preserves_order (doc : JsonDoc) (recs : List RawRecord)
    (out : List Row) (hfind : findKey doc "dataSekolah" = some recs)
    (hok : transform_data doc = .ok out) :
    List.Sublist out (recs.map procRow) := by
  rw [transform_data_ok doc recs out hfind hok]
  exact List.Sublist.map procRow (List.filter_sublist recs)

/-- C10 witness: order preservation applied to the concrete scenario. -/
theorem c10_transform_preserves_order_witness :
    List.Sublist [exampleRow] (List.map procRow [rec1, rec2, rec3]) :=
  c10_transform_preserves_order exampleDoc [rec1, rec2, rec3] [exampleRow]
    (by decide) rfl

/-- A public high-school record with no `sekolah` field but parseable
coordinates. -/
def recNoName : RawRecord :=
  ⟨some "N", some "SMA", none, some "Jl. Anggrek", some "-6.4", some "106.6"⟩

/-- The image of `recNoName`: its `school_address` is null. -/
def rowNoName : Row :=
  ⟨some "N", some "SMA", none, some "Jl. Anggrek",
    some ⟨-64, 1⟩, some ⟨1066, 1⟩, none⟩

/-- A document whose second record lacks the `sekolah` field. -/
def nullAddressDoc : JsonDoc := [("dataSekolah", [rec1, recNoName])]

/-- C4 counterexample: on a concrete collection containing a surviving
record with no `sekolah` field, the transform stage outputs that record
with a null `school_address` — the absent field is not replaced by an
empty string and the derived column is not populated for every output
record. -/
theorem c4_counterexample :
    transform_data nullAddressDoc = .ok [exampleRow, rowNoName] ∧
    rowNoName.school_address = none ∧
    ¬ rowNoName.school_address = some ("" ++ " - " ++ "Jl. Anggrek") :=
  ⟨rfl, rfl, by decide⟩

/-- C4 (amended): a surviving record whose name or street field is absent
keeps its place in the output (the quality-drop checks only coordinates),
but the null propagates: its derived `school_address` is null, not an
empty-string concatenation. -/
theorem c4_null_field_gives_null_address (doc : JsonDoc)
    (recs : List RawRecord) (out : List Row)
    (hfind : findKey doc "dataSekolah" = some recs)
    (hok : transform_data doc = .ok out) :
    ∀ row ∈ out, (row.sekolah = none ∨ row.alamat_jalan = none) →
      row.school_address = none := by
  intro row hrow hnull
  rw [transform_data_ok doc recs out hfind hok] at hrow
  obtain ⟨r, _, rfl⟩ := List.mem_map.mp hrow
  simp only [procRow, step_coerce, step_address] at hnull ⊢
  cases hsek : r.sekolah <;> cases haj : r.alamat_jalan <;>
    simp_all [derive_school_address]

/-- C4 amended witness: the null-propagation law applied to the concrete
collection with a name-less surviving record. -/
theorem c4_null_field_gives_null_address_witness :
    rowNoName.school_address = none :=
  c4_null_field_gives_null_address nullAddressDoc [rec1, recNoName]
    [exampleRow, rowNoName] (by decide) rfl rowNoName (by decide)
    (Or.inl (by decide))

/-- A well-formed document that lacks the `dataSekolah` key. -/
def noKeyDoc : JsonDoc := [("dataGuru", [rec1])]

/-- C5 counterexample: on a well-formed document without the `dataSekolah`
key the extract stage succeeds, returning the document unchecked — the
missing-key failure arises in the transform stage, not the extract
stage. -/
theorem c5_counterexample :
    fetch_data_from_json (SourceFile.wellFormed noKeyDoc) = .ok noKeyDoc ∧
    transform_data noKeyDoc = .error .keyErrorDataSekolah := ⟨rfl, rfl⟩

/-- C5 (amended): whenever the source deserializes to a document without
the `dataSekolah` key, the extract stage succeeds and returns the document
verbatim; the missing-key error is raised by the transform stage when it
accesses the key, before any record processing. -/
theorem c5_missing_key_fails_in_transform (doc : JsonDoc)
    (hmiss : findKey doc "dataSekolah" = none) :
    fetch_data_from_json (SourceFile.wellFormed doc) = .ok doc ∧
    transform_data doc = .error .keyErrorDataSekolah := by
  refine ⟨rfl, ?_⟩
  simp [transform_data, hmiss]

/-- C5 amended witness: the law applied to a concrete key-less document. -/
theorem c5_missing_key_fails_in_transform_witness :
    fetch_data_from_json (SourceFile.wellFormed [("dataGuru", [rec1])])
        = .ok [("dataGuru", [rec1])] ∧
    transform_data [("dataGuru", [rec1])] = .error .keyErrorDataSekolah :=
  c5_missing_key_fails_in_transform [("dataGuru", [rec1])] (by decide)

/-- A record carrying none of the six expected fields. -/
def emptyRec : RawRecord := ⟨none, none, none, none, none, none⟩

/-- A document whose only record carries none of the expected fields. -/
def allAbsentDoc : JsonDoc := [("dataSekolah", [emptyRec])]

/-- C6: when the six expected fields are absent from every record the
transform stage fails with the missing-column error (raised at the first
column access, `status`), whereas a nonempty collection whose records all
carry the fields but all fail the business filter completes successfully
with an empty frame. -/
theorem c6_schema_error_vs_empty_filter (doc : JsonDoc)
    (recs : List RawRecord)
    (hfind : findKey doc "dataSekolah" = some recs) :
    ((∀ r ∈ recs, r.status = none ∧ r.bentuk = none ∧ r.sekolah = none ∧
        r.alamat_jalan = none ∧ r.lintang = none ∧ r.bujur = none) →
      transform_data doc = .error (.keyErrorColumn "status")) ∧
    (recs ≠ [] →
      (∀ r ∈ recs, r.status.isSome = true ∧ r.bentuk.isSome = true ∧
        r.sekolah.isSome = true ∧ r.alamat_jalan.isSome = true ∧
        r.lintang.isSome = true ∧ r.bujur.isSome = true) →
      (∀ r ∈ recs, passesFilter r = false) →
      transform_data doc = .ok []) := by
  constructor
  · intro h
    have hs : hasColumn recs (fun r => r.status) = false := by
      simp only [hasColumn, List.any_eq_false]
      intro r hr
      simp [(h r hr).1]
    simp [transform_data, hfind, hs]
  · intro hne hall hfail
    have hcol : ∀ f : RawRecord → Option String,
        (∀ r ∈ recs, (f r).isSome = true) → hasColumn recs f = true := by
      intro f hf
      cases recs with
      | nil => exact absurd rfl hne
      | cons a l =>
        exact List.any_eq_true.mpr
          ⟨a, List.mem_cons_self a l, hf a (List.mem_cons_self a l)⟩
    have hmask : maskHasNA recs = false := by
      simp only [maskHasNA, List.any_eq_false]
      intro r hr
      obtain ⟨s, hs⟩ := Option.isSome_iff_exists.mp (hall r hr).1
      simp [combinedMask, statusMask, hs]
    have hfilter : recs.filter passesFilter = [] := by
      rw [List.filter_eq_nil_iff]
      intro a ha
      simp [hfail a ha]
    simp [transform_data, hfind, hmask, hfilter, dropna_coords,
      hcol (fun r => r.status) (fun r hr => (hall r hr).1),
      hcol (fun r => r.bentuk) (fun r hr => (hall r hr).2.1),
      hcol (fun r => r.sekolah) (fun r hr => (hall r hr).2.2.1),
      hcol (fun r => r.alamat_jalan) (fun r hr => (hall r hr).2.2.2.1),
      hcol (fun r => r.lintang) (fun r hr => (hall r hr).2.2.2.2.1),
      hcol (fun r => r.bujur) (fun r hr => (hall r hr).2.2.2.2.2)]

/-- C6 witness: the field-less document fails with the missing-column
error, and the all-fields-present document whose record fails the filter
completes with an empty frame. -/
theorem c6_schema_error_vs_empty_filter_witness :
    transform_data allAbsentDoc = .error (.keyErrorColumn "status") ∧
    transform_data droppedDoc = .ok [] :=
  ⟨(c6_schema_error_vs_empty_filter allAbsentDoc [emptyRec] (by decide)).1
      (by decide),
   (c6_schema_error_vs_empty_filter droppedDoc [rec2] (by decide)).2
      (by decide) (by decide) (by decide)⟩

/-- C8: the load stage has replace semantics: loading frame A and then
frame B leaves the destination holding exactly B's columns and rows, and a
row of A is present afterwards only when it is also a row of B. -/
theorem c8_load_replace_semantics (A B : TabularFrame) (db : Database) :
    load_data_to_database B (load_data_to_database A db)
        = some ⟨B.cols, B.rows⟩ ∧
    ∀ r ∈ A.rows,
      r ∈ tableRows (load_data_to_database B (load_data_to_database A db)) →
      r ∈ B.rows := by
  refine ⟨rfl, ?_⟩
  intro r _ hr
  simpa [load_data_to_database, to_sql_replace, tableRows] using hr

/-- Frame A of the C8 witness. -/
def frameA : TabularFrame := ⟨["sekolah"], [["SMA 1"], ["SMA 9"]]⟩

/-- Frame B of the C8 witness. -/
def frameB : TabularFrame := ⟨["sekolah"], [["SMA 1"]]⟩

/-- C8 witness: replace semantics applied to two concrete frames over an
initially empty destination. -/
theorem c8_load_replace_semantics_witness :
    load_data_to_database frameB (load_data_to_database frameA none)
        = some ⟨frameB.cols, frameB.rows⟩ ∧
    ["SMA 1"] ∈ frameB.rows :=
  ⟨(c8_load_replace_semantics frameA frameB none).1,
   (c8_load_replace_semantics frameA frameB none).2 ["SMA 1"] (by decide)
     (by decide)⟩

/-- Looking up any column of a column list in the TEXT-typed dictionary
built from that list yields TEXT. -/
theorem lookupType_text (cols : List String) (c : String) (hc : c ∈ cols) :
    lookupType (cols.map (fun c2 => (c2, "TEXT"))) c = some "TEXT" := by
  induction cols with
  | nil => cases hc
  | cons a l ih =>
    by_cases h : a = c
    · simp [lookupType, h]
    · rcases List.mem_cons.mp hc with h2 | h2
      · exact absurd h2.symm h
      · simp [lookupType, h, ih h2]

/-- C9: the CREATE TABLE declaration lists exactly the frame's columns, in
the frame's order, each declared with the single generic type TEXT. -/
theorem c9_create_declaration (frame : TabularFrame) :
    create_table_columns frame
      = frame.cols.map (fun c => (c, some "TEXT")) := by
  unfold create_table_columns data_types
  apply List.map_congr_left
  intro c hc
  rw [lookupType_text frame.cols c hc]

end SchoolETL
